import Mathlib

/-
Verification development for the MARCO repository.

The repository has two cores:
 * src/systems/navigation_system.py : Transformation3D (Euler rotations),
   Location3D (IMU dead-reckoning pose integrator), Navigation3D (logging
   subclass that also owns get_magnetic_field).
 * src/poc/poc_example.py : Navigator (line following: weighted-centroid
   line position estimator, PID steering, differential-drive mixing,
   gap-recovery routine attempt_reacquire).

Machine floats of the source are modelled as exact rationals.  The
trigonometric functions (math.cos, math.sin, applied after the
degrees-to-radians conversion when mode == "degrees") are abstracted as a
TrigModel: a pair of functions from angle to its cosine and sine value.
All claims proven below either hold for every trig model or are settled at
angles (0 and 90 degrees) where the cosine/sine values are exact rationals.
-/

namespace Marco

/-- A 3-component vector of rationals (numpy arrays of length 3). -/
structure Vec3 where
  x : ℚ
  y : ℚ
  z : ℚ
deriving DecidableEq, Repr

namespace Vec3

def add (a b : Vec3) : Vec3 := ⟨a.x + b.x, a.y + b.y, a.z + b.z⟩

def sub (a b : Vec3) : Vec3 := ⟨a.x - b.x, a.y - b.y, a.z - b.z⟩

def smul (c : ℚ) (a : Vec3) : Vec3 := ⟨c * a.x, c * a.y, c * a.z⟩

def sdiv (a : Vec3) (c : ℚ) : Vec3 := ⟨a.x / c, a.y / c, a.z / c⟩

/-- Sum of squares of the components (the square of np.linalg.norm). -/
def sumSq (a : Vec3) : ℚ := a.x * a.x + a.y * a.y + a.z * a.z

/-- Exact rational rendering of the float comparison
np.linalg.norm a < t : since the norm is the nonnegative square root of
sumSq a, the comparison holds iff t is positive and sumSq a < t ^ 2. -/
def normLt (a : Vec3) (t : ℚ) : Bool := decide (0 < t) && decide (sumSq a < t * t)

def zero : Vec3 := ⟨0, 0, 0⟩

end Vec3

/-- A 3x3 rational matrix, stored as rows. -/
structure Mat3 where
  r0 : Vec3
  r1 : Vec3
  r2 : Vec3
deriving DecidableEq, Repr

namespace Mat3

/-- np.transpose. -/
def transpose (m : Mat3) : Mat3 :=
  ⟨⟨m.r0.x, m.r1.x, m.r2.x⟩, ⟨m.r0.y, m.r1.y, m.r2.y⟩, ⟨m.r0.z, m.r1.z, m.r2.z⟩⟩

def dot (a b : Vec3) : ℚ := a.x * b.x + a.y * b.y + a.z * b.z

/-- np.matmul for two 3x3 matrices. -/
def mul (m n : Mat3) : Mat3 :=
  let nt := n.transpose
  ⟨⟨dot m.r0 nt.r0, dot m.r0 nt.r1, dot m.r0 nt.r2⟩,
   ⟨dot m.r1 nt.r0, dot m.r1 nt.r1, dot m.r1 nt.r2⟩,
   ⟨dot m.r2 nt.r0, dot m.r2 nt.r1, dot m.r2 nt.r2⟩⟩

/-- np.matmul of a 3x3 matrix with a 3-vector. -/
def mulVec (m : Mat3) (v : Vec3) : Vec3 := ⟨dot m.r0 v, dot m.r1 v, dot m.r2 v⟩

def identity : Mat3 := ⟨⟨1, 0, 0⟩, ⟨0, 1, 0⟩, ⟨0, 0, 1⟩⟩

end Mat3

/-- Abstraction of the trigonometric evaluations performed by the source:
cos t and sin t give the values of math.cos and math.sin at the source
angle t (after the degrees-to-radians conversion of the configured mode,
so t is in the unit the caller passes). -/
structure TrigModel where
  cos : ℚ → ℚ
  sin : ℚ → ℚ

/-- A trig model is faithful to real trigonometry only if it satisfies the
Pythagorean identity at every angle. -/
def TrigModel.Pythagorean (T : TrigModel) : Prop :=
  ∀ t : ℚ, T.cos t * T.cos t + T.sin t * T.sin t = 1

/-- Transformation3D.get_rotation_yaw: rotation matrix for yaw (Z axis);
transposed when invert is set. -/
def get_rotation_yaw (T : TrigModel) (yaw : ℚ) (invert : Bool) : Mat3 :=
  let R : Mat3 :=
    ⟨⟨T.cos yaw, T.sin yaw, 0⟩,
     ⟨-T.sin yaw, T.cos yaw, 0⟩,
     ⟨0, 0, 1⟩⟩
  if invert then R.transpose else R

/-- Transformation3D.get_rotation_pitch: rotation matrix for pitch (Y axis);
transposed when invert is set. -/
def get_rotation_pitch (T : TrigModel) (pitch : ℚ) (invert : Bool) : Mat3 :=
  let R : Mat3 :=
    ⟨⟨T.cos pitch, 0, -T.sin pitch⟩,
     ⟨0, 1, 0⟩,
     ⟨T.sin pitch, 0, T.cos pitch⟩⟩
  if invert then R.transpose else R

/-- Transformation3D.get_rotation_roll: rotation matrix for roll (X axis);
transposed when invert is set. -/
def get_rotation_roll (T : TrigModel) (roll : ℚ) (invert : Bool) : Mat3 :=
  let R : Mat3 :=
    ⟨⟨1, 0, 0⟩,
     ⟨0, T.cos roll, T.sin roll⟩,
     ⟨0, -T.sin roll, T.cos roll⟩⟩
  if invert then R.transpose else R

/-- Transformation3D.get_rotation: R_yaw @ (R_pitch @ R_roll), where each
factor is individually transposed when invert is set (the composition
order is NOT reversed on invert - this is the source's behaviour). -/
def get_rotation (T : TrigModel) (yaw pitch roll : ℚ) (invert : Bool) : Mat3 :=
  let R_yaw := get_rotation_yaw T yaw invert
  let R_pitch := get_rotation_pitch T pitch invert
  let R_roll := get_rotation_roll T roll invert
  R_yaw.mul (R_pitch.mul R_roll)

/-- Transformation3D.rotate_vector: apply the combined rotation matrix to a
3-vector. -/
def rotate_vector (T : TrigModel) (vector : Vec3) (yaw pitch roll : ℚ)
    (invert : Bool) : Vec3 :=
  (get_rotation T yaw pitch roll invert).mulVec vector

/-- Transformation3D.translate_vector: vector addition. -/
def translate_vector (vector translation : Vec3) : Vec3 :=
  vector.add translation

/-- A concrete trig model (angles in degrees) that agrees exactly with real
trigonometry at the two angles used by counterexamples: cos 0 = 1, sin 0 = 0,
cos 90 = 0, sin 90 = 1.  It satisfies the Pythagorean identity everywhere. -/
def trigNinety : TrigModel :=
  { cos := fun t => if t = 90 then 0 else 1
    sin := fun t => if t = 90 then 1 else 0 }

/-
Embedding of src/poc/poc_example.py : constants, Navigator helpers, and the
gap-recovery routine attempt_reacquire.  The hardware abstraction functions
read_line_sensors / set_motor_speeds / read_encoders are placeholders in the
source ("TODO: Replace with actual ... API"); the sensor is therefore a
parameter of the model (the sequence of frames successive reads return),
motor commands are external effects with no influence on the recovery
logic and are not tracked, and read_encoders raises NotImplementedError in
the source so every encoder access takes its except-fallback path
(distance estimated as speed times sleep time).  Wall-clock time is
modelled as advancing exactly by the argument of each time.sleep call.
-/

def INCH_TO_CM : ℚ := 2.54

def MIN_RADIUS_IN : ℚ := 2.0

def MIN_RADIUS_CM : ℚ := MIN_RADIUS_IN * INCH_TO_CM

def WHEEL_BASE_CM : ℚ := 12.0

def MAX_LINEAR_SPEED : ℚ := 25.0

/-- OMEGA_MAX = MAX_LINEAR_SPEED / max(MIN_RADIUS_CM, 0.1). -/
def OMEGA_MAX : ℚ := MAX_LINEAR_SPEED / max MIN_RADIUS_CM 0.1

def KP : ℚ := 0.9

def KI : ℚ := 0.002

def KD : ℚ := 0.02

def SENSOR_THRESHOLD : ℚ := 0.5

def SENSOR_POSITIONS : List ℚ := [-2, -1, 0, 1, 2]

def GAP_MAX_REACQUIRE_TIME : ℚ := 1.2

def GAP_SWEEP_ANGLE_DEG : ℤ := 20

def GAP_SWEEP_STEP : ℤ := 5

def REACQUIRE_MAX_DISTANCE_CM : ℚ := 40.0

def LOOP_DT : ℚ := 0.04

/-- clamp(x, lo, hi) = max(lo, min(hi, x)). -/
def clamp (x lo hi : ℚ) : ℚ := max lo (min hi x)

/-- Navigator.sensor_reading_to_position: accumulate (total, weighted_sum)
over zip(sensor_vals, SENSOR_POSITIONS), counting only readings at or above
SENSOR_THRESHOLD; the pair component order is (val, pos). -/
def srpFold (pairs : List (ℚ × ℚ)) (init : ℚ × ℚ) : ℚ × ℚ :=
  pairs.foldl
    (fun acc vp =>
      if SENSOR_THRESHOLD ≤ vp.1 then (acc.1 + vp.1, acc.2 + vp.2 * vp.1) else acc)
    init

/-- Navigator.sensor_reading_to_position: weighted average of sensor
positions by intensity over readings clearing the threshold; none when the
accumulated total is zero. -/
def sensor_reading_to_position (sensor_vals : List ℚ) : Option ℚ :=
  let acc := srpFold (sensor_vals.zip SENSOR_POSITIONS) (0, 0)
  if acc.1 = 0 then none else some (acc.2 / acc.1)

/-- PID accumulators of Navigator (set up in __init__). -/
structure PIDState where
  integral : ℚ
  prev_error : ℚ
deriving DecidableEq, Repr

/-- Navigator.pid_steer: returns the clamped angular command and the
updated accumulator state. -/
def pid_steer (s : PIDState) (error dt : ℚ) : ℚ × PIDState :=
  let integral := s.integral + error * dt
  let derivative := if 0 < dt then (error - s.prev_error) / dt else 0
  let steering := KP * error + KI * integral + KD * derivative
  let STEERING_SCALE : ℚ := 1.0
  let omega := clamp (steering * STEERING_SCALE) (-OMEGA_MAX) OMEGA_MAX
  (omega, ⟨integral, error⟩)

/-- Navigator.omega_to_wheel_speeds: differential-drive mixing, each wheel
clamped independently; returns (v_l, v_r) as the source does. -/
def omega_to_wheel_speeds (v_cm_s omega : ℚ) : ℚ × ℚ :=
  let L := WHEEL_BASE_CM
  let v_r := v_cm_s + omega * L / 2.0
  let v_l := v_cm_s - omega * L / 2.0
  let v_r1 := clamp v_r (-MAX_LINEAR_SPEED) MAX_LINEAR_SPEED
  let v_l1 := clamp v_l (-MAX_LINEAR_SPEED) MAX_LINEAR_SPEED
  (v_l1, v_r1)

/-- The sequence of sensor frames returned by successive calls of
read_line_sensors (the hardware placeholder, made a model parameter). -/
def Sensor : Type := Nat → List ℚ

/-- DEAD_RECKON_TIMEOUT = min(GAP_MAX_REACQUIRE_TIME * 0.6, 0.6). -/
def DEAD_RECKON_TIMEOUT : ℚ := min (GAP_MAX_REACQUIRE_TIME * 0.6) 0.6

/-- State of the dead-reckon loop of attempt_reacquire: model clock
(seconds since entering attempt_reacquire), dist_travelled, and the number
of sensor reads performed so far. -/
structure DeadState where
  t : ℚ
  dist : ℚ
  reads : Nat
deriving DecidableEq, Repr

/-- Dead-reckon loop of attempt_reacquire: while elapsed time is below
DEAD_RECKON_TIMEOUT and distance below REACQUIRE_MAX_DISTANCE_CM, drive
forward, sleep 0.05 s, sample the line; return true on detection.
Distance grows by the except-fallback estimate v * 0.05 (read_encoders
raises in the source).  The while loop is unrolled on explicit fuel; none
means the fuel did not cover the loop (the termination theorems show
concrete fuel always suffices). -/
def deadLoop (sensor : Sensor) (v : ℚ) : Nat → DeadState → Option (Bool × DeadState)
  | 0, _ => none
  | fuel + 1, s =>
    if s.t < DEAD_RECKON_TIMEOUT ∧ s.dist < REACQUIRE_MAX_DISTANCE_CM then
      let t1 := s.t + 0.05
      match sensor_reading_to_position (sensor s.reads) with
      | some _ => some (true, ⟨t1, s.dist, s.reads + 1⟩)
      | none => deadLoop sensor v fuel ⟨t1, s.dist + v * 0.05, s.reads + 1⟩
    else some (false, s)

/-- SWEEP_STEPS = int(GAP_SWEEP_ANGLE_DEG // GAP_SWEEP_STEP). -/
def SWEEP_STEPS : ℕ := (GAP_SWEEP_ANGLE_DEG / GAP_SWEEP_STEP).toNat

/-- The sweep multiplier sequence built by attempt_reacquire:
0, +1, -1, +2, -2, ... for k in range(SWEEP_STEPS). -/
def sweep_dir_sequence : List ℤ :=
  (List.range SWEEP_STEPS).foldl
    (fun acc k => if k = 0 then acc ++ [(0 : ℤ)] else acc ++ [(k : ℤ), -(k : ℤ)])
    []

/-- One executed sweep pulse: its step multiplier, the model clock when the
drive pulse is issued, and the line position sampled right after it. -/
structure SweepPulse where
  mult : ℤ
  time : ℚ
  sample : Option ℚ
deriving DecidableEq, Repr

/-- Sweep loop of attempt_reacquire over the remaining multiplier
sequence.  Before each pulse the source compares the clock against
sweep_start_time (NOT against the entry time t0, which it never uses);
exceeding GAP_MAX_REACQUIRE_TIME breaks out.  A pulse is a 0.12 s drive
followed by a 0.03 s stop-and-settle and one sensor sample.  Returns
(reacquired, clock, reads, executed pulses). -/
def sweepLoop (sensor : Sensor) (sweep_start : ℚ) :
    List ℤ → ℚ → Nat → List SweepPulse → Bool × ℚ × Nat × List SweepPulse
  | [], t, reads, acc => (false, t, reads, acc)
  | m :: rest, t, reads, acc =>
    if GAP_MAX_REACQUIRE_TIME < t - sweep_start then (false, t, reads, acc)
    else
      let t1 := t + 0.12 + 0.03
      let pos := sensor_reading_to_position (sensor reads)
      let acc1 := acc ++ [⟨m, t, pos⟩]
      match pos with
      | some _ => (true, t1, reads + 1, acc1)
      | none => sweepLoop sensor sweep_start rest t1 (reads + 1) acc1

/-- Wiggle loop of attempt_reacquire: up to 3 pulses of 0.08 s forward
drive, 0.03 s stop, then one sample; returns on any detection.  Returns
(reacquired, clock, reads, executed pulses). -/
def wiggleLoop (sensor : Sensor) : Nat → ℚ → Nat → Nat → Bool × ℚ × Nat × Nat
  | 0, t, reads, done => (false, t, reads, done)
  | n + 1, t, reads, done =>
    let t1 := t + 0.08 + 0.03
    match sensor_reading_to_position (sensor reads) with
    | some _ => (true, t1, reads + 1, done + 1)
    | none => wiggleLoop sensor n t1 (reads + 1) (done + 1)

/-- Outcome of a modelled attempt_reacquire run: the returned boolean, the
clocks at the end of the dead-reckon phase, of the sweep phase and at
return, the dead-reckon sample count, the executed sweep pulses, and the
number of executed wiggle pulses. -/
structure ReacquireResult where
  success : Bool
  t_dead : ℚ
  t_sweep : ℚ
  t_end : ℚ
  deadReads : Nat
  pulses : List SweepPulse
  wigglePulses : Nat
deriving DecidableEq, Repr

/-- Navigator.attempt_reacquire: dead-reckon forward, then sweep, then
wiggle; any detection returns success immediately.  The model clock starts
at 0 on entry (the source records t0 = time.time() there and never reads
it again).  DEAD_RECKON_SPEED = base_speed * 0.4. -/
def attempt_reacquire (sensor : Sensor) (base_speed : ℚ) (fuel : Nat) :
    Option ReacquireResult :=
  match deadLoop sensor (base_speed * 0.4) fuel ⟨0, 0, 0⟩ with
  | none => none
  | some (true, s) => some ⟨true, s.t, s.t, s.t, s.reads, [], 0⟩
  | some (false, s) =>
    match sweepLoop sensor s.t sweep_dir_sequence s.t s.reads [] with
    | (true, t1, _, pulses) => some ⟨true, s.t, t1, t1, s.reads, pulses, 0⟩
    | (false, t1, reads1, pulses) =>
      match wiggleLoop sensor 3 t1 reads1 0 with
      | (found, t2, _, done) => some ⟨found, s.t, t1, t2, s.reads, pulses, done⟩

/-- A line sensor that never detects anything: every frame is all zeros. -/
def zeroSensor : Sensor := fun _ => [0, 0, 0, 0, 0]

/-
Embedding of src/systems/navigation_system.py : Location3D (pose
integrator) and the distinction between Location3D and its subclass
Navigation3D (which alone defines get_magnetic_field).  The IMU driver is
external and becomes a model parameter giving the accelerometer and
gyroscope triples of each successive read; the magnetometer magnitude
np.linalg.norm(getMag()) is likewise a parameter (its square root is not
rational-representable).
-/

def GRAVITY : ℚ := 9.80235

/-- One IMU poll: getAccel as (ax, ay, az) and getGyro as (gx, gy, gz),
where getGyro returns the rates about the x, y, z axes (the source reads
them as d_roll, d_pitch, d_yaw and reorders). -/
structure IMUReading where
  accel : Vec3
  gyro : Vec3
deriving DecidableEq, Repr

/-- Mutable state of a Location3D instance (the fields set in __init__
that update_position touches or reads). -/
structure LocState where
  pos : Vec3
  velocity : Vec3
  acceleration : Vec3
  accel_local : Vec3
  orientation : Vec3
  d_orientation : Vec3
  a_orientation : Vec3
  accel_bias : Vec3
  gyro_bias : Vec3
  calibrated : Bool
  velocity_decay : ℚ
  accel_threshold : ℚ
  initialized : Bool
deriving DecidableEq, Repr

/-- Location3D.update_orientation on a present IMU: reorder the gyro
triple to [d_yaw, d_pitch, d_roll], subtract the gyro bias when
calibrated; first call only seeds the rates, later calls integrate the
orientation trapezoidally and recompute the angular acceleration.
Division by dt follows the rational convention x / 0 = 0 (the source
would produce non-finite floats there; no claim depends on dt = 0). -/
def update_orientation (s : LocState) (r : IMUReading) (dt : ℚ) : LocState :=
  let new_d0 : Vec3 := ⟨r.gyro.z, r.gyro.y, r.gyro.x⟩
  let new_d := if s.calibrated then new_d0.sub s.gyro_bias else new_d0
  if s.initialized then
    { s with
      orientation :=
        s.orientation.add
          ((Vec3.smul (0.5 * (dt * dt)) s.a_orientation).add
            (Vec3.smul dt s.d_orientation))
      a_orientation := (new_d.sub s.d_orientation).sdiv dt
      d_orientation := new_d }
  else
    { s with d_orientation := new_d, initialized := true }

/-- Per-axis noise thresholding at the end of update_position: components
with magnitude below the threshold are zeroed. -/
def threshold3 (th : ℚ) (v : Vec3) : Vec3 :=
  ⟨if |v.x| < th then 0 else v.x,
   if |v.y| < th then 0 else v.y,
   if |v.z| < th then 0 else v.z⟩

/-- Location3D.update_position on a present IMU, for one tick of length
dt given the fresh IMU poll r: position and velocity advance from the
PREVIOUS acceleration and velocity, velocity decay applies when the norm
of the previous acceleration is below the threshold, and only then is the
new acceleration read, bias-corrected, rotated (invert=True) by the
orientation updated from this tick's gyro, gravity-compensated when
uncalibrated, per-axis thresholded, and stored. -/
def update_position (T : TrigModel) (s : LocState) (r : IMUReading) (dt : ℚ) : LocState :=
  let prev_acceleration := s.acceleration
  let prev_velocity := s.velocity
  let pos1 :=
    translate_vector s.pos
      ((Vec3.smul dt prev_velocity).add (Vec3.smul (0.5 * (dt * dt)) prev_acceleration))
  let vel1 := translate_vector prev_velocity (Vec3.smul dt prev_acceleration)
  let vel2 :=
    if Vec3.normLt prev_acceleration s.accel_threshold then
      Vec3.smul (1.0 - s.velocity_decay) vel1
    else vel1
  let accel_local1 := if s.calibrated then r.accel.sub s.accel_bias else r.accel
  let s1 :=
    update_orientation
      { s with pos := pos1, velocity := vel2, accel_local := accel_local1 } r dt
  let accel_global0 :=
    rotate_vector T accel_local1 s1.orientation.x s1.orientation.y s1.orientation.z true
  let accel_global1 :=
    if s.calibrated then accel_global0 else accel_global0.sub ⟨0, 0, GRAVITY⟩
  { s1 with acceleration := threshold3 s.accel_threshold accel_global1 }

/-
Embedding of Location3D.calibrate and the class split: the method
get_magnetic_field is defined only on the subclass Navigation3D, yet
Location3D.calibrate invokes self.get_magnetic_field() inside its
sampling loop, so dynamic attribute lookup fails with AttributeError on a
plain Location3D instance.
-/

inductive PyError where
  | attributeError
deriving DecidableEq, Repr

/-- The runtime class of the instance calibrate is invoked on. -/
inductive NavClass where
  | location3D
  | navigation3D
deriving DecidableEq, Repr

/-- The IMU driver during calibration: the accelerometer and gyroscope
triples of each successive poll, and the magnetometer field magnitude of
each successive get_magnetic_field call. -/
structure IMUModel where
  accel : Nat → Vec3
  gyro : Nat → Vec3
  magMagnitude : Nat → ℚ

/-- Dynamic dispatch of self.get_magnetic_field(): defined only on
Navigation3D (where it returns 0.0 for a missing IMU, else the magnitude
of the magnetometer reading); attribute lookup on a plain Location3D
raises AttributeError. -/
def get_magnetic_field (cls : NavClass) (imu : Option IMUModel) (i : Nat) :
    Except PyError ℚ :=
  match cls with
  | .location3D => .error .attributeError
  | .navigation3D =>
    match imu with
    | none => .ok 0
    | some m => .ok (m.magMagnitude i)

/-- The bias averages produced by a completed calibration. -/
structure CalibrationBias where
  accel_bias : Vec3
  gyro_bias : Vec3
  mag_baseline : ℚ
deriving DecidableEq, Repr

/-- Sampling loop of Location3D.calibrate: for each sample read accel and
gyro, accumulate (the gyro reordered to yaw, pitch, roll), and add the
result of self.get_magnetic_field() - which raises on a Location3D. -/
def calibrateLoop (cls : NavClass) (m : IMUModel) :
    Nat → Nat → Vec3 → Vec3 → ℚ → Except PyError (Vec3 × Vec3 × ℚ)
  | _, 0, accel_sum, gyro_sum, mag_sum => .ok (accel_sum, gyro_sum, mag_sum)
  | i, n + 1, accel_sum, gyro_sum, mag_sum =>
    let a := m.accel i
    let g := m.gyro i
    match get_magnetic_field cls (some m) i with
    | .error e => .error e
    | .ok mg =>
      calibrateLoop cls m (i + 1) n (accel_sum.add a)
        (gyro_sum.add ⟨g.z, g.y, g.x⟩) (mag_sum + mg)

/-- Location3D.calibrate: returns ok none when no IMU is attached (the
source prints and returns False), otherwise averages the sampling loop
into a CalibrationBias; an exception escaping the loop propagates. -/
def calibrate (cls : NavClass) (imu : Option IMUModel) (samples : Nat) :
    Except PyError (Option CalibrationBias) :=
  match imu with
  | none => .ok none
  | some m =>
    match calibrateLoop cls m 0 samples Vec3.zero Vec3.zero 0 with
    | .error e => .error e
    | .ok (asum, gsum, msum) =>
      .ok (some ⟨asum.sdiv samples, gsum.sdiv samples, msum / samples⟩)

/-- An IMU whose every reading is zero (used to instantiate witnesses). -/
def zeroIMU : IMUModel :=
  { accel := fun _ => Vec3.zero
    gyro := fun _ => Vec3.zero
    magMagnitude := fun _ => 0 }

/-
Helper lemmas shared by the claim theorems.
-/

lemma OMEGA_MAX_eq : OMEGA_MAX = 625 / 127 := by
  have hmax : max ((2.0 : ℚ) * 2.54) 0.1 = 5.08 := by
    rw [max_eq_left] <;> norm_num
  rw [OMEGA_MAX, MAX_LINEAR_SPEED, MIN_RADIUS_CM, MIN_RADIUS_IN, INCH_TO_CM, hmax]
  norm_num

lemma le_clamp (x lo hi : ℚ) : lo ≤ clamp x lo hi := le_max_left _ _

lemma clamp_le (x lo hi : ℚ) (h : lo ≤ hi) : clamp x lo hi ≤ hi :=
  max_le h (min_le_left _ _)

lemma abs_clamp_le (x b : ℚ) (h : 0 ≤ b) : |clamp x (-b) b| ≤ b :=
  abs_le.mpr ⟨le_clamp _ _ _, clamp_le _ _ _ (by linarith)⟩

lemma OMEGA_MAX_nonneg : (0 : ℚ) ≤ OMEGA_MAX := by rw [OMEGA_MAX_eq]; norm_num

lemma GAP_TIME_eq : GAP_MAX_REACQUIRE_TIME = 6 / 5 := by
  norm_num [GAP_MAX_REACQUIRE_TIME]

lemma DEAD_RECKON_TIMEOUT_eq : DEAD_RECKON_TIMEOUT = 3 / 5 := by
  rw [DEAD_RECKON_TIMEOUT, GAP_MAX_REACQUIRE_TIME]
  rw [min_eq_right (by norm_num)]
  norm_num

lemma sweep_dir_sequence_eq : sweep_dir_sequence = [0, 1, -1, 2, -2, 3, -3] := by decide

lemma deadLoop_succ (sensor : Sensor) (v : ℚ) (fuel : Nat) (s : DeadState) :
    deadLoop sensor v (fuel + 1) s =
      if s.t < DEAD_RECKON_TIMEOUT ∧ s.dist < REACQUIRE_MAX_DISTANCE_CM then
        match sensor_reading_to_position (sensor s.reads) with
        | some _ => some (true, ⟨s.t + 0.05, s.dist, s.reads + 1⟩)
        | none => deadLoop sensor v fuel ⟨s.t + 0.05, s.dist + v * 0.05, s.reads + 1⟩
      else some (false, s) := rfl

lemma sweepLoop_nil (sensor : Sensor) (start t : ℚ) (reads : Nat)
    (acc : List SweepPulse) :
    sweepLoop sensor start [] t reads acc = (false, t, reads, acc) := rfl

lemma sweepLoop_cons (sensor : Sensor) (start : ℚ) (m : ℤ) (rest : List ℤ)
    (t : ℚ) (reads : Nat) (acc : List SweepPulse) :
    sweepLoop sensor start (m :: rest) t reads acc =
      if GAP_MAX_REACQUIRE_TIME < t - start then (false, t, reads, acc)
      else
        match sensor_reading_to_position (sensor reads) with
        | some _ =>
          (true, t + 0.12 + 0.03, reads + 1,
            acc ++ [⟨m, t, sensor_reading_to_position (sensor reads)⟩])
        | none =>
          sweepLoop sensor start rest (t + 0.12 + 0.03) (reads + 1)
            (acc ++ [⟨m, t, sensor_reading_to_position (sensor reads)⟩]) := rfl

lemma wiggleLoop_succ (sensor : Sensor) (n : Nat) (t : ℚ) (reads done : Nat) :
    wiggleLoop sensor (n + 1) t reads done =
      match sensor_reading_to_position (sensor reads) with
      | some _ => (true, t + 0.08 + 0.03, reads + 1, done + 1)
      | none => wiggleLoop sensor n (t + 0.08 + 0.03) (reads + 1) (done + 1) := rfl

/-- Termination of the dead-reckon loop: once the remaining fuel covers the
remaining time budget (each iteration advances the clock by exactly the
0.05 s sleep), the loop returns, and on a never-detecting sensor it returns
false with an end clock at most max(start, DEAD_RECKON_TIMEOUT + 0.05). -/
lemma deadLoop_never (sensor : Sensor) (v : ℚ)
    (hs : ∀ n, sensor_reading_to_position (sensor n) = none) :
    ∀ (fuel : Nat) (s : DeadState),
      DEAD_RECKON_TIMEOUT ≤ s.t + fuel * (1 / 20) →
      ∃ s1 : DeadState, deadLoop sensor v (fuel + 1) s = some (false, s1) ∧
        s1.t ≤ max s.t (DEAD_RECKON_TIMEOUT + 1 / 20) := by
  intro fuel
  induction fuel with
  | zero =>
    intro s hbound
    refine ⟨s, ?_, le_max_left _ _⟩
    rw [deadLoop_succ]
    rw [if_neg ?_]
    intro hg
    have := hg.1
    push_cast at hbound
    linarith
  | succ f ih =>
    intro s hbound
    by_cases hg : s.t < DEAD_RECKON_TIMEOUT ∧ s.dist < REACQUIRE_MAX_DISTANCE_CM
    · have hrec : deadLoop sensor v (f + 1 + 1) s =
          deadLoop sensor v (f + 1) ⟨s.t + 0.05, s.dist + v * 0.05, s.reads + 1⟩ := by
        rw [deadLoop_succ, if_pos hg, hs]
      obtain ⟨s1, hrun, hbnd⟩ :=
        ih ⟨s.t + 0.05, s.dist + v * 0.05, s.reads + 1⟩ (by push_cast at hbound ⊢; norm_num; linarith)
      refine ⟨s1, by rw [hrec, hrun], ?_⟩
      have h1 : s.t + (0.05 : ℚ) ≤ DEAD_RECKON_TIMEOUT + 1 / 20 := by
        have := hg.1
        norm_num
        linarith
      calc s1.t ≤ max (s.t + 0.05) (DEAD_RECKON_TIMEOUT + 1 / 20) := hbnd
        _ = DEAD_RECKON_TIMEOUT + 1 / 20 := max_eq_right h1
        _ ≤ max s.t (DEAD_RECKON_TIMEOUT + 1 / 20) := le_max_right _ _
    · refine ⟨s, ?_, le_max_left _ _⟩
      rw [deadLoop_succ, if_neg hg]

/-- On a never-detecting sensor the sweep executes all seven pulses of the
scan sequence (its per-sweep clock check never exceeds the budget: the 7th
and last pulse is issued 0.9 s after sweep start), each pulse is followed
by exactly one sensor sample, and the phase ends 1.05 s after it began. -/
lemma sweepLoop_never (sensor : Sensor)
    (hs : ∀ n, sensor_reading_to_position (sensor n) = none)
    (t0 : ℚ) (reads : Nat) :
    sweepLoop sensor t0 sweep_dir_sequence t0 reads [] =
      (false, t0 + 21 / 20, reads + 7,
       [⟨0, t0, none⟩, ⟨1, t0 + 3 / 20, none⟩, ⟨-1, t0 + 6 / 20, none⟩,
        ⟨2, t0 + 9 / 20, none⟩, ⟨-2, t0 + 12 / 20, none⟩, ⟨3, t0 + 15 / 20, none⟩,
        ⟨-3, t0 + 18 / 20, none⟩]) := by
  have hG : GAP_MAX_REACQUIRE_TIME = 6 / 5 := GAP_TIME_eq
  rw [sweep_dir_sequence_eq]
  rw [sweepLoop_cons, if_neg (by rw [hG]; intro h; linarith), hs]
  rw [sweepLoop_cons, if_neg (by rw [hG]; intro h; norm_num at h; linarith), hs]
  rw [sweepLoop_cons, if_neg (by rw [hG]; intro h; norm_num at h; linarith), hs]
  rw [sweepLoop_cons, if_neg (by rw [hG]; intro h; norm_num at h; linarith), hs]
  rw [sweepLoop_cons, if_neg (by rw [hG]; intro h; norm_num at h; linarith), hs]
  rw [sweepLoop_cons, if_neg (by rw [hG]; intro h; norm_num at h; linarith), hs]
  rw [sweepLoop_cons, if_neg (by rw [hG]; intro h; norm_num at h; linarith), hs]
  rw [sweepLoop_nil]
  norm_num
  constructor
  · ring
  · refine ⟨by ring, by ring, by ring, by ring, by ring, by ring⟩

/-- On a never-detecting sensor the wiggle phase executes exactly its three
pulses (0.08 s drive + 0.03 s settle each, one sample after each) and
returns false 0.33 s after it began. -/
lemma wiggleLoop_never (sensor : Sensor)
    (hs : ∀ n, sensor_reading_to_position (sensor n) = none)
    (t : ℚ) (reads : Nat) :
    wiggleLoop sensor 3 t reads 0 = (false, t + 33 / 100, reads + 3, 3) := by
  show wiggleLoop sensor (2 + 1) t reads 0 = _
  rw [wiggleLoop_succ, hs]
  show wiggleLoop sensor (1 + 1) _ _ _ = _
  rw [wiggleLoop_succ, hs]
  show wiggleLoop sensor (0 + 1) _ _ _ = _
  rw [wiggleLoop_succ, hs]
  show (false, t + 0.08 + 0.03 + 0.08 + 0.03 + 0.08 + 0.03, reads + 1 + 1 + 1, 0 + 1 + 1 + 1) = _
  norm_num
  ring

/-- The all-zero sensor never reports a line position. -/
lemma zeroSensor_never (n : Nat) :
    sensor_reading_to_position (zeroSensor n) = none := by
  norm_num [zeroSensor, sensor_reading_to_position, srpFold, SENSOR_POSITIONS,
    SENSOR_THRESHOLD]

/-- Concrete dead-reckon phase for base speed 15 and the all-zero sensor:
12 iterations of 0.05 s, ending at clock 0.6 s with 3.6 cm of estimated
travel and 12 samples taken. -/
lemma deadLoop_zero15 :
    deadLoop zeroSensor (15 * 0.4) 13 ⟨0, 0, 0⟩ = some (false, ⟨3 / 5, 18 / 5, 12⟩) := by
  norm_num [deadLoop, zeroSensor_never, DEAD_RECKON_TIMEOUT_eq, REACQUIRE_MAX_DISTANCE_CM]

/-- The full recovery run for base speed 15 on the all-zero sensor. -/
def resZero15 : ReacquireResult :=
  ⟨false, 3 / 5, 33 / 20, 99 / 50, 12,
   [⟨0, 3 / 5, none⟩, ⟨1, 3 / 4, none⟩, ⟨-1, 9 / 10, none⟩, ⟨2, 21 / 20, none⟩,
    ⟨-2, 6 / 5, none⟩, ⟨3, 27 / 20, none⟩, ⟨-3, 3 / 2, none⟩], 3⟩

lemma run_zero15 : attempt_reacquire zeroSensor 15 13 = some resZero15 := by
  have h1 := deadLoop_zero15
  have h2 := sweepLoop_never zeroSensor zeroSensor_never (3 / 5) 12
  have h3 := wiggleLoop_never zeroSensor zeroSensor_never (3 / 5 + 21 / 20) (12 + 7)
  simp only [attempt_reacquire, h1, h2, h3]
  norm_num [resZero15]

end Marco

namespace Marco

/-- C3 amended: on a line sensor that never detects, attempt_reacquire
always terminates (fuel 13 covers the dead-reckon loop) and returns
failure, after the dead-reckon phase (ending by 0.65 s), then the full
7-pulse sweep phase (1.05 s), then exactly 3 wiggle pulses (0.33 s); the
total elapsed time is up to 2.03 s - it does NOT stay within the
GAP_MAX_REACQUIRE_TIME budget of 1.2 s, which the source only applies to
the sweep phase's own clock. -/
theorem attempt_reacquire_never_detect (sensor : Sensor) (base_speed : ℚ)
    (hs : ∀ n, sensor_reading_to_position (sensor n) = none) :
    ∃ r : ReacquireResult,
      attempt_reacquire sensor base_speed 13 = some r ∧
      r.success = false ∧
      r.pulses.map SweepPulse.mult = [0, 1, -1, 2, -2, 3, -3] ∧
      r.wigglePulses = 3 ∧
      r.t_dead ≤ 13 / 20 ∧
      r.t_sweep = r.t_dead + 21 / 20 ∧
      r.t_end = r.t_sweep + 33 / 100 := by
  obtain ⟨s1, hrun, hbnd⟩ :=
    deadLoop_never sensor (base_speed * 0.4) hs 12 ⟨0, 0, 0⟩
      (by rw [DEAD_RECKON_TIMEOUT_eq]; norm_num)
  have hrun13 : deadLoop sensor (base_speed * 0.4) 13 ⟨0, 0, 0⟩ = some (false, s1) := hrun
  have hb2 : s1.t ≤ 13 / 20 := by
    rw [DEAD_RECKON_TIMEOUT_eq] at hbnd
    have h0 : (⟨0, 0, 0⟩ : DeadState).t = 0 := rfl
    rw [h0, max_eq_right (by norm_num)] at hbnd
    linarith
  have h2 := sweepLoop_never sensor hs s1.t s1.reads
  have h3 := wiggleLoop_never sensor hs (s1.t + 21 / 20) (s1.reads + 7)
  refine ⟨⟨false, s1.t, s1.t + 21 / 20, s1.t + 21 / 20 + 33 / 100, s1.reads,
    [⟨0, s1.t, none⟩, ⟨1, s1.t + 3 / 20, none⟩, ⟨-1, s1.t + 6 / 20, none⟩,
     ⟨2, s1.t + 9 / 20, none⟩, ⟨-2, s1.t + 12 / 20, none⟩, ⟨3, s1.t + 15 / 20, none⟩,
     ⟨-3, s1.t + 18 / 20, none⟩], 3⟩, ?_, rfl, by simp, rfl, hb2, rfl, rfl⟩
  simp only [attempt_reacquire, hrun13, h2, h3]

/-- C3 witness: the amended statement instantiated at the all-zero sensor
with base speed 15. -/
theorem attempt_reacquire_never_detect_witness :
    ∃ r : ReacquireResult,
      attempt_reacquire zeroSensor 15 13 = some r ∧
      r.success = false ∧
      r.pulses.map SweepPulse.mult = [0, 1, -1, 2, -2, 3, -3] ∧
      r.wigglePulses = 3 ∧
      r.t_dead ≤ 13 / 20 ∧
      r.t_sweep = r.t_dead + 21 / 20 ∧
      r.t_end = r.t_sweep + 33 / 100 :=
  attempt_reacquire_never_detect zeroSensor 15 zeroSensor_never

/-- C3 counterexample: for base speed 15 and a sensor that never detects,
attempt_reacquire returns failure only at clock 1.98 s - far beyond the
configured GAP_MAX_REACQUIRE_TIME = 1.2 s budget even granting a full
0.15 s sweep tick of slack. -/
theorem attempt_reacquire_budget_exceeded :
    attempt_reacquire zeroSensor 15 13 = some resZero15 ∧
    GAP_MAX_REACQUIRE_TIME + 3 / 20 < resZero15.t_end :=
  ⟨run_zero15, by rw [GAP_TIME_eq]; norm_num [resZero15]⟩

/-- C4 amended: the sweep scans 0, +1, -1, +2, -2, +3, -3 in
GAP_SWEEP_STEP = 5 degree increments - reaching offsets only up to
plus-or-minus (GAP_SWEEP_ANGLE_DEG - GAP_SWEEP_STEP) = 15 degrees, one
step short of GAP_SWEEP_ANGLE_DEG - and on a never-detecting sensor all
seven pulses execute, each recorded together with the sensor sample taken
after it (seven samples for seven pulses). -/
theorem sweep_scan_sequence (sensor : Sensor) (t0 : ℚ) (reads : Nat)
    (hs : ∀ n, sensor_reading_to_position (sensor n) = none) :
    sweep_dir_sequence.map (fun k => k * GAP_SWEEP_STEP) = [0, 5, -5, 10, -10, 15, -15] ∧
    (∀ k ∈ sweep_dir_sequence,
        |k * GAP_SWEEP_STEP| ≤ GAP_SWEEP_ANGLE_DEG - GAP_SWEEP_STEP) ∧
    (sweepLoop sensor t0 sweep_dir_sequence t0 reads []).2.2.2.map SweepPulse.mult =
      sweep_dir_sequence ∧
    (sweepLoop sensor t0 sweep_dir_sequence t0 reads []).2.2.1 = reads + 7 := by
  refine ⟨by decide, by decide, ?_, ?_⟩ <;>
    rw [sweepLoop_never sensor hs t0 reads] <;>
    simp [sweep_dir_sequence_eq]

/-- C4 witness: the amended statement instantiated at the all-zero sensor
starting at clock 0.6 s after 12 prior samples. -/
theorem sweep_scan_sequence_witness :
    sweep_dir_sequence.map (fun k => k * GAP_SWEEP_STEP) = [0, 5, -5, 10, -10, 15, -15] ∧
    (∀ k ∈ sweep_dir_sequence,
        |k * GAP_SWEEP_STEP| ≤ GAP_SWEEP_ANGLE_DEG - GAP_SWEEP_STEP) ∧
    (sweepLoop zeroSensor (3 / 5) sweep_dir_sequence (3 / 5) 12 []).2.2.2.map SweepPulse.mult =
      sweep_dir_sequence ∧
    (sweepLoop zeroSensor (3 / 5) sweep_dir_sequence (3 / 5) 12 []).2.2.1 = 12 + 7 :=
  sweep_scan_sequence zeroSensor (3 / 5) 12 zeroSensor_never

/-- C4 counterexample: the scan sequence in degrees is
0, 5, -5, 10, -10, 15, -15; no pulse ever reaches the angular offset
plus-or-minus GAP_SWEEP_ANGLE_DEG = 20 degrees claimed as the sweep's
reach. -/
theorem sweep_angle_max_never_reached :
    sweep_dir_sequence.map (fun k => k * GAP_SWEEP_STEP) = [0, 5, -5, 10, -10, 15, -15] ∧
    ∀ k ∈ sweep_dir_sequence,
      k * GAP_SWEEP_STEP ≠ GAP_SWEEP_ANGLE_DEG ∧
      k * GAP_SWEEP_STEP ≠ -GAP_SWEEP_ANGLE_DEG := by decide

/-- C5: in the concrete never-detect run at base speed 15, the sweep
issues a pulse at clock 1.35 s, strictly after the GAP_MAX_REACQUIRE_TIME
= 1.2 s budget measured from entry into attempt_reacquire has elapsed: the
source checks its budget against sweep_start_time and never reads the
entry timestamp t0, so the sweep is NOT aborted once the overall elapsed
time exceeds the budget. -/
theorem sweep_pulse_after_global_budget :
    attempt_reacquire zeroSensor 15 13 = some resZero15 ∧
    (⟨3, 27 / 20, none⟩ : SweepPulse) ∈ resZero15.pulses ∧
    GAP_MAX_REACQUIRE_TIME < 27 / 20 := by
  refine ⟨run_zero15, ?_, by rw [GAP_TIME_eq]; norm_num⟩
  simp [resZero15]

/-- C9: one update_position tick advances the position by
previous_velocity * dt + 0.5 * previous_acceleration * dt^2 and the
velocity by previous_acceleration * dt (both from the state stored at the
end of the previous tick), applies the velocity decay factor exactly when
the norm of the previous acceleration is below the threshold (normLt is
the exact rational rendering of that comparison), and only after those
updates reads the new IMU acceleration, subtracts the calibration bias
when calibrated, rotates it into the global frame (invert=True) with the
orientation freshly updated from this tick's gyro, subtracts the fixed
gravity vector only when uncalibrated, thresholds it per axis, and stores
it for the next tick. -/
theorem update_position_order (T : TrigModel) (s : LocState) (r : IMUReading) (dt : ℚ) :
    (update_position T s r dt).pos =
      s.pos.add ((Vec3.smul dt s.velocity).add (Vec3.smul (0.5 * (dt * dt)) s.acceleration)) ∧
    (update_position T s r dt).velocity =
      (if Vec3.normLt s.acceleration s.accel_threshold then
        Vec3.smul (1.0 - s.velocity_decay) (s.velocity.add (Vec3.smul dt s.acceleration))
      else s.velocity.add (Vec3.smul dt s.acceleration)) ∧
    (update_position T s r dt).accel_local =
      (if s.calibrated then r.accel.sub s.accel_bias else r.accel) ∧
    (update_position T s r dt).orientation = (update_orientation s r dt).orientation ∧
    (update_position T s r dt).acceleration =
      threshold3 s.accel_threshold
        (if s.calibrated then
          rotate_vector T (r.accel.sub s.accel_bias)
            (update_position T s r dt).orientation.x
            (update_position T s r dt).orientation.y
            (update_position T s r dt).orientation.z true
        else
          (rotate_vector T r.accel
            (update_position T s r dt).orientation.x
            (update_position T s r dt).orientation.y
            (update_position T s r dt).orientation.z true).sub ⟨0, 0, GRAVITY⟩) := by
  cases hinit : s.initialized <;> cases hcal : s.calibrated <;>
    refine ⟨?_, ?_, ?_, ?_, ?_⟩ <;>
      simp [update_position, update_orientation, translate_vector, hinit, hcal]

/-- C10: on a Location3D instance (not the Navigation3D subclass) with an
IMU attached, calibrate raises AttributeError for any positive sample
count, because its sampling loop invokes self.get_magnetic_field(), which
only Navigation3D defines; on a Navigation3D instance with the same IMU
the same call completes and produces a CalibrationBias. -/
theorem calibrate_requires_navigation3d (m : IMUModel) (samples : Nat)
    (h : 1 ≤ samples) :
    calibrate .location3D (some m) samples = .error .attributeError ∧
    ∃ bias : CalibrationBias, calibrate .navigation3D (some m) samples = .ok (some bias) := by
  constructor
  · obtain ⟨k, rfl⟩ : ∃ k, samples = k + 1 := ⟨samples - 1, by omega⟩
    simp [calibrate, calibrateLoop, get_magnetic_field]
  · have hloop : ∀ (n i : Nat) (a g : Vec3) (q : ℚ), ∃ out,
        calibrateLoop .navigation3D m i n a g q = .ok out := by
      intro n
      induction n with
      | zero => exact fun i a g q => ⟨(a, g, q), rfl⟩
      | succ k ih =>
        intro i a g q
        simp only [calibrateLoop, get_magnetic_field]
        exact ih (i + 1) _ _ _
    obtain ⟨out, hout⟩ := hloop samples 0 Vec3.zero Vec3.zero 0
    refine ⟨⟨out.1.sdiv samples, out.2.1.sdiv samples, out.2.2 / samples⟩, ?_⟩
    simp [calibrate, hout]

/-- C10 witness: a Location3D with a concrete all-zero IMU and the default
50 samples raises AttributeError, while a Navigation3D completes. -/
theorem calibrate_requires_navigation3d_witness :
    calibrate .location3D (some zeroIMU) 50 = .error .attributeError ∧
    ∃ bias : CalibrationBias, calibrate .navigation3D (some zeroIMU) 50 = .ok (some bias) :=
  calibrate_requires_navigation3d zeroIMU 50 (by norm_num)

end Marco

namespace Marco

/-- C1: for the concrete angles yaw = 90, pitch = 0, roll = 90 (degrees) -
at which the trig model trigNinety coincides exactly with real cosine and
sine, and which satisfies the Pythagorean identity everywhere - rotating
the vector (1, 0, 0) and then rotating the result with the same angles and
invert=True yields (0, 0, -1), not the original vector: get_rotation with
invert=True composes the transposed axis matrices in the unchanged
yaw-pitch-roll order, which is not the inverse of the forward rotation. -/
theorem rotate_vector_invert_roundtrip_fails :
    rotate_vector trigNinety
        (rotate_vector trigNinety ⟨1, 0, 0⟩ 90 0 90 false) 90 0 90 true
      = ⟨0, 0, -1⟩ ∧
    (⟨0, 0, -1⟩ : Vec3) ≠ ⟨1, 0, 0⟩ ∧
    TrigModel.Pythagorean trigNinety := by
  refine ⟨?_, ?_, ?_⟩
  · norm_num [rotate_vector, get_rotation, get_rotation_yaw, get_rotation_pitch,
      get_rotation_roll, Mat3.mul, Mat3.mulVec, Mat3.transpose, Mat3.dot, trigNinety]
  · simp only [ne_eq, Vec3.mk.injEq]
    norm_num
  · intro t
    by_cases ht : t = 90 <;> simp [trigNinety, ht]

/-- C6 counterexample: a call with dt = -1 (which is dt ≤ 0) and error = 1
changes the integral accumulator from 0 to -1, so the accumulator is NOT
left unchanged for every dt ≤ 0. -/
theorem pid_steer_integral_changes_on_negative_dt :
    (pid_steer ⟨0, 0⟩ 1 (-1)).2.integral = -1 ∧ ((-1 : ℚ) ≠ 0) := by
  constructor
  · norm_num [pid_steer]
  · norm_num

/-- C6 amended: for dt ≤ 0 the derivative term is 0 (not an error), and
the integral accumulator is updated by error * dt unconditionally - so it
is left unchanged when dt = 0 but does change by error * dt when dt < 0. -/
theorem pid_steer_nonpositive_dt (s : PIDState) (error dt : ℚ) (h : dt ≤ 0) :
    (pid_steer s error dt).2.integral = s.integral + error * dt ∧
    (dt = 0 → (pid_steer s error dt).2.integral = s.integral) ∧
    (pid_steer s error dt).1 =
      clamp ((KP * error + KI * (s.integral + error * dt) + KD * 0) * 1.0)
        (-OMEGA_MAX) OMEGA_MAX := by
  have hdt : ¬ (0 < dt) := not_lt.mpr h
  refine ⟨by simp [pid_steer], ?_, by simp [pid_steer, hdt]⟩
  intro h0
  simp [pid_steer, h0]

/-- C6 witness: the amended statement instantiated at the zero controller
state with error = 1, dt = 0. -/
theorem pid_steer_nonpositive_dt_witness :
    (pid_steer ⟨0, 0⟩ 1 0).2.integral = (0 : ℚ) + 1 * 0 ∧
    ((0 : ℚ) = 0 → (pid_steer ⟨0, 0⟩ 1 0).2.integral = (0 : ℚ)) ∧
    (pid_steer ⟨0, 0⟩ 1 0).1 =
      clamp ((KP * 1 + KI * ((0 : ℚ) + 1 * 0) + KD * 0) * 1.0)
        (-OMEGA_MAX) OMEGA_MAX :=
  pid_steer_nonpositive_dt ⟨0, 0⟩ 1 0 (by norm_num)

/-- Modelled from the spec words for the refinement part of C2: the
accumulated intensity sum(intensity) over the elements at or above
SENSOR_THRESHOLD. -/
def lineTotal : List (ℚ × ℚ) → ℚ
  | [] => 0
  | p :: ps => (if SENSOR_THRESHOLD ≤ p.1 then p.1 else 0) + lineTotal ps

/-- Modelled from the spec words for the refinement part of C2: the
accumulated sum(position * intensity) over the elements at or above
SENSOR_THRESHOLD. -/
def lineWeighted : List (ℚ × ℚ) → ℚ
  | [] => 0
  | p :: ps => (if SENSOR_THRESHOLD ≤ p.1 then p.2 * p.1 else 0) + lineWeighted ps

lemma srpFold_eq (pairs : List (ℚ × ℚ)) :
    ∀ a b : ℚ, srpFold pairs (a, b) = (a + lineTotal pairs, b + lineWeighted pairs) := by
  induction pairs with
  | nil => intro a b; simp [srpFold, lineTotal, lineWeighted]
  | cons p ps ih =>
    intro a b
    by_cases hp : SENSOR_THRESHOLD ≤ p.1
    · have hstep : srpFold (p :: ps) (a, b) = srpFold ps (a + p.1, b + p.2 * p.1) := by
        simp [srpFold, hp]
      rw [hstep, ih]
      simp [lineTotal, lineWeighted, hp]
      constructor <;> ring
    · have hstep : srpFold (p :: ps) (a, b) = srpFold ps (a, b) := by
        simp [srpFold, hp]
      rw [hstep, ih]
      simp [lineTotal, lineWeighted, hp]

lemma lineTotal_nonneg (pairs : List (ℚ × ℚ)) : 0 ≤ lineTotal pairs := by
  induction pairs with
  | nil => simp [lineTotal]
  | cons p ps ih =>
    have : (0 : ℚ) ≤ if SENSOR_THRESHOLD ≤ p.1 then p.1 else 0 := by
      split_ifs with hp
      · calc (0 : ℚ) ≤ SENSOR_THRESHOLD := by norm_num [SENSOR_THRESHOLD]
          _ ≤ p.1 := hp
      · exact le_refl 0
    simp only [lineTotal]
    linarith

lemma lineTotal_pos (pairs : List (ℚ × ℚ)) (h : ∃ p ∈ pairs, SENSOR_THRESHOLD ≤ p.1) :
    0 < lineTotal pairs := by
  induction pairs with
  | nil => simp at h
  | cons p ps ih =>
    have hrest := lineTotal_nonneg ps
    rcases h with ⟨q, hq, hqth⟩
    rcases List.mem_cons.mp hq with hq1 | hq2
    · subst hq1
      have : (0 : ℚ) < q.1 := lt_of_lt_of_le (by norm_num [SENSOR_THRESHOLD]) hqth
      simp only [lineTotal, if_pos hqth]
      linarith
    · have hpos := ih ⟨q, hq2, hqth⟩
      have : (0 : ℚ) ≤ if SENSOR_THRESHOLD ≤ p.1 then p.1 else 0 := by
        split_ifs with hp
        · exact le_trans (by norm_num [SENSOR_THRESHOLD]) hp
        · exact le_refl 0
      simp only [lineTotal]
      linarith

lemma lineTotal_eq_zero_iff (pairs : List (ℚ × ℚ)) :
    lineTotal pairs = 0 ↔ ∀ p ∈ pairs, p.1 < SENSOR_THRESHOLD := by
  constructor
  · intro h0 p hp
    by_contra hge
    have := lineTotal_pos pairs ⟨p, hp, not_lt.mp hge⟩
    linarith
  · intro hall
    induction pairs with
    | nil => simp [lineTotal]
    | cons p ps ih =>
      have hp : ¬ SENSOR_THRESHOLD ≤ p.1 := not_le.mpr (hall p (List.mem_cons_self _ _))
      simp only [lineTotal, if_neg hp, zero_add]
      exact ih fun q hq => hall q (List.mem_cons_of_mem _ hq)

/-- C2: sensor_reading_to_position returns the intensity-weighted centroid
sum(position * intensity) / sum(intensity) over the elements at or above
SENSOR_THRESHOLD whenever at least one element clears the threshold, a
frame with a single element v at or above threshold and all others zero
yields exactly that element's position, and the result is none exactly
when every element is below the threshold. -/
theorem sensor_reading_to_position_spec (vals : List ℚ) (hlen : vals.length = 5) :
    ((∃ p ∈ vals.zip SENSOR_POSITIONS, SENSOR_THRESHOLD ≤ p.1) →
        sensor_reading_to_position vals =
          some (lineWeighted (vals.zip SENSOR_POSITIONS) /
                lineTotal (vals.zip SENSOR_POSITIONS))) ∧
    (sensor_reading_to_position vals = none ↔
        ∀ p ∈ vals.zip SENSOR_POSITIONS, p.1 < SENSOR_THRESHOLD) ∧
    (∀ v : ℚ, SENSOR_THRESHOLD ≤ v →
        sensor_reading_to_position [v, 0, 0, 0, 0] = some (-2) ∧
        sensor_reading_to_position [0, v, 0, 0, 0] = some (-1) ∧
        sensor_reading_to_position [0, 0, v, 0, 0] = some 0 ∧
        sensor_reading_to_position [0, 0, 0, v, 0] = some 1 ∧
        sensor_reading_to_position [0, 0, 0, 0, v] = some 2) := by
  have hnone : ∀ w : List ℚ,
      (sensor_reading_to_position w = none ↔
        lineTotal (w.zip SENSOR_POSITIONS) = 0) := by
    intro w
    rw [sensor_reading_to_position]
    simp only [srpFold_eq, zero_add]
    split_ifs with h0
    · simp [h0]
    · simp [h0]
  refine ⟨?_, ?_, ?_⟩
  · intro hex
    have hpos := lineTotal_pos _ hex
    rw [sensor_reading_to_position]
    simp only [srpFold_eq, zero_add]
    rw [if_neg (by linarith)]
  · rw [hnone vals, lineTotal_eq_zero_iff]
  · intro v hv
    have hvpos : (0 : ℚ) < v := lt_of_lt_of_le (by norm_num [SENSOR_THRESHOLD]) hv
    have hvne : v ≠ 0 := ne_of_gt hvpos
    have hz : ¬ SENSOR_THRESHOLD ≤ (0 : ℚ) := by norm_num [SENSOR_THRESHOLD]
    refine ⟨?_, ?_, ?_, ?_, ?_⟩ <;>
      · simp [sensor_reading_to_position, srpFold, SENSOR_POSITIONS, hv, hz, hvne]
        try field_simp

/-- C2 witness: the scenario frame [0, 0, 0.9, 0, 0] with the centred
element clearing the threshold yields lateral error exactly 0. -/
theorem sensor_reading_to_position_witness :
    sensor_reading_to_position [0, 0, 9 / 10, 0, 0] = some 0 :=
  ((sensor_reading_to_position_spec [0, 0, 9 / 10, 0, 0] (by simp)).2.2
    (9 / 10) (by norm_num [SENSOR_THRESHOLD])).2.2.1

/-- C7: for every controller state, error and dt, the angular command
returned by pid_steer has magnitude at most OMEGA_MAX = MAX_LINEAR_SPEED /
max(MIN_RADIUS_CM, 0.1). -/
theorem pid_steer_output_le_omega_max (s : PIDState) (error dt : ℚ) :
    |(pid_steer s error dt).1| ≤ OMEGA_MAX ∧
    OMEGA_MAX = MAX_LINEAR_SPEED / MIN_RADIUS_CM := by
  constructor
  · have h := abs_clamp_le
      ((KP * error + KI * (s.integral + error * dt) +
          KD * (if 0 < dt then (error - s.prev_error) / dt else 0)) * 1.0)
      OMEGA_MAX OMEGA_MAX_nonneg
    simpa [pid_steer] using h
  · rw [OMEGA_MAX_eq]
    norm_num [MAX_LINEAR_SPEED, MIN_RADIUS_CM, MIN_RADIUS_IN, INCH_TO_CM]

/-- C8: omega_to_wheel_speeds is the pure function returning
v_l = clamp(v - omega * L / 2) and v_r = clamp(v + omega * L / 2), each
wheel clamped independently to [-MAX_LINEAR_SPEED, MAX_LINEAR_SPEED], so
both wheel speeds always have magnitude at most MAX_LINEAR_SPEED. -/
theorem omega_to_wheel_speeds_spec (v omega : ℚ) :
    omega_to_wheel_speeds v omega =
      (clamp (v - omega * WHEEL_BASE_CM / 2) (-MAX_LINEAR_SPEED) MAX_LINEAR_SPEED,
       clamp (v + omega * WHEEL_BASE_CM / 2) (-MAX_LINEAR_SPEED) MAX_LINEAR_SPEED) ∧
    |(omega_to_wheel_speeds v omega).1| ≤ MAX_LINEAR_SPEED ∧
    |(omega_to_wheel_speeds v omega).2| ≤ MAX_LINEAR_SPEED := by
  have hpos : (0 : ℚ) ≤ MAX_LINEAR_SPEED := by norm_num [MAX_LINEAR_SPEED]
  refine ⟨?_, ?_, ?_⟩
  · norm_num [omega_to_wheel_speeds]
  · simpa [omega_to_wheel_speeds] using
      abs_clamp_le (v - omega * WHEEL_BASE_CM / 2.0) MAX_LINEAR_SPEED hpos
  · simpa [omega_to_wheel_speeds] using
      abs_clamp_le (v + omega * WHEEL_BASE_CM / 2.0) MAX_LINEAR_SPEED hpos

end Marco
